import Mathlib

/-!
Verification of the credit-card statement-parser frontend.

Shallow embedding of the three source files:
  * `src/DonutAnalytics.js` — spending-analytics aggregation (filter to
    debit, stable sort descending by amount, top-4 + "Others" grouping,
    grand total, legend percentages) and its render outcomes;
  * `src/ResultsDisplay.js` — the `formatCurrency` helper
    (`toLocaleString('en-IN', {minimumFractionDigits: 2,
    maximumFractionDigits: 2})` with an `N/A` guard for null/undefined)
    and the credit-limit detail cell;
  * `src/App.js` — the form-submit handler state updates and the
    conditional rendering of error message and parsed result.

JavaScript numbers are modelled as `ℚ`; `null`/`undefined` as `Option`.
A JavaScript division whose result is not a finite number (`0/0 = NaN`)
is modelled as `Option.none`.
-/

/-- A transaction of the parsed statement: date, description, amount,
type ("debit" or "credit").  Mirrors the objects in the `transactions`
array of the API response consumed by `DonutAnalytics.js`. -/
structure Txn where
  date : String
  description : String
  amount : ℚ
  type : String
deriving DecidableEq, Repr

/-- A chart slice: the objects held in `chartItems` carry a description
and an amount (the synthetic "Others" object has exactly these fields). -/
structure Slice where
  description : String
  amount : ℚ
deriving DecidableEq, Repr

/-- The parsed statement payload destructured in `ResultsDisplay.js`.
All numeric fields are nullable (`Option ℚ`). -/
structure StatementResult where
  bank_name : String
  card_number : Option String
  statement_date : Option String
  payment_due_date : Option String
  credit_limit : Option ℚ
  total_amount_due : Option ℚ
  minimum_amount_due : Option ℚ
  available_credit : Option ℚ
  transactions : List Txn
deriving DecidableEq, Repr

/-- `t.type === 'debit'` — the filter predicate on line 17 of
`DonutAnalytics.js`. -/
def isDebit (t : Txn) : Bool :=
  t.type == "debit"

/-- The comparator `(a, b) => b.amount - a.amount` passed to the stable
`Array.prototype.sort`: `a` is placed before `b` exactly when
`b.amount - a.amount ≤ 0`, i.e. descending by amount, ties in original
order.  Modelled by the stable `List.mergeSort` with that relation. -/
def sortByAmountDesc (l : List Txn) : List Txn :=
  l.mergeSort (fun a b => b.amount ≤ a.amount)

/-- `debitTransactions` (lines 16–18): filter to debit, then sort
descending by amount. -/
def debitTransactions (ts : List Txn) : List Txn :=
  sortByAmountDesc (ts.filter isDebit)

/-- `topItems = debitTransactions.slice(0, 4)` (line 30). -/
def topItems (ts : List Txn) : List Txn :=
  (debitTransactions ts).take 4

/-- `otherItems = debitTransactions.slice(4)` (line 31). -/
def otherItems (ts : List Txn) : List Txn :=
  (debitTransactions ts).drop 4

/-- `otherItemsSum = otherItems.reduce((sum, t) => sum + t.amount, 0)`
(line 32). -/
def otherItemsSum (ts : List Txn) : ℚ :=
  ((otherItems ts).map Txn.amount).sum

/-- View of a transaction as the `{description, amount}` pair used by the
chart items. -/
def Txn.toSlice (t : Txn) : Slice :=
  ⟨t.description, t.amount⟩

/-- `chartItems` (lines 34–37): the top items, plus one synthetic
`{description: 'Others', amount: otherItemsSum}` object pushed only when
`otherItems.length > 0`. -/
def chartItems (ts : List Txn) : List Slice :=
  let top := (topItems ts).map Txn.toSlice
  if (otherItems ts).length > 0 then
    top ++ [⟨"Others", otherItemsSum ts⟩]
  else
    top

/-- `totalSpent = debitTransactions.reduce((sum, t) => sum + t.amount, 0)`
(line 39). -/
def totalSpent (ts : List Txn) : ℚ :=
  ((debitTransactions ts).map Txn.amount).sum

/-- JavaScript division, as used on line 113: the result is a finite
number unless the divisor is zero (there `0/0` is `NaN` and `x/0` is
`±Infinity`), modelled as `none`. -/
def jsDiv (a b : ℚ) : Option ℚ :=
  if b = 0 then none else some (a / b)

/-- `Number.prototype.toFixed(1)`: the integer `n` minimising
`|n / 10 - x|`, the larger one on a tie, over `10`. -/
def toFixed1 (x : ℚ) : ℚ :=
  (⌊x * 10 + 1 / 2⌋ : ℚ) / 10

/-- The legend percentage of one item (line 113):
`((item.amount / totalSpent) * 100).toFixed(1)`.  `none` models the
non-finite outcome (`NaN`) when `totalSpent` is zero. -/
def legendPercentage (amount total : ℚ) : Option ℚ :=
  (jsDiv amount total).map (fun r => toFixed1 (r * 100))

/-- The possible render outcomes of the `DonutAnalytics` component:
`empty` is the bare `return null` (nothing rendered), `noSpending` is the
"No spending transactions found in this statement." info message, and
`chart` carries the slices, the grand total and the legend percentages
actually displayed. -/
inductive DonutRender where
  | empty : DonutRender
  | noSpending : DonutRender
  | chart : List Slice → ℚ → List (Option ℚ) → DonutRender
deriving DecidableEq, Repr

/-- The `DonutAnalytics` component (lines 10–129): `null` when the data
or its transactions are missing/empty; the info message when no debit
transactions exist; otherwise the chart with its legend. -/
def donutAnalytics (data : Option StatementResult) : DonutRender :=
  match data with
  | none => .empty
  | some d =>
    if d.transactions.length = 0 then .empty
    else if (debitTransactions d.transactions).length = 0 then .noSpending
    else
      .chart (chartItems d.transactions) (totalSpent d.transactions)
        ((chartItems d.transactions).map
          (fun item => legendPercentage item.amount (totalSpent d.transactions)))

/-- Rounding used by `Intl`/`toLocaleString` with its default
"halfExpand" mode: nearest integer, ties away from zero. -/
def jsRoundHalfExpand (x : ℚ) : ℤ :=
  if 0 ≤ x then ⌊x + 1 / 2⌋ else -⌊-x + 1 / 2⌋

/-- Helper for en-IN digit grouping: the digits beyond the last three,
reversed, split into groups of two with a separating comma. -/
def pairGroupsRev : List Char → List Char
  | [] => []
  | [a] => [',', a]
  | a :: b :: rest => ',' :: a :: b :: pairGroupsRev rest

/-- en-IN digit grouping of a natural number: the last three digits,
then groups of two, e.g. `1234567 ↦ "12,34,567"`. -/
def indianGroup (n : ℕ) : String :=
  let rev := (toString n).toList.reverse
  String.mk ((rev.take 3 ++ pairGroupsRev (rev.drop 3)).reverse)

/-- Two-digit zero-padded rendering of a number of cents below 100. -/
def twoDigits (n : ℕ) : String :=
  if n < 10 then "0" ++ toString n else toString n

/-- `amount.toLocaleString('en-IN', { minimumFractionDigits: 2,
maximumFractionDigits: 2 })`: round to cents (ties away from zero),
en-IN grouping on the integer part, exactly two fraction digits. -/
def toLocaleStringEnIn2dp (q : ℚ) : String :=
  let cents := jsRoundHalfExpand (q * 100)
  let sign := if cents < 0 then "-" else ""
  sign ++ indianGroup (cents.natAbs / 100) ++ "." ++ twoDigits (cents.natAbs % 100)

/-- `formatCurrency` (ResultsDisplay.js lines 7–10): the literal
`'N/A'` placeholder for a null or undefined amount, otherwise
`'₹' + amount.toLocaleString('en-IN', {minimumFractionDigits: 2,
maximumFractionDigits: 2})`. -/
def formatCurrency (amount : Option ℚ) : String :=
  match amount with
  | none => "N/A"
  | some a => "₹" ++ toLocaleStringEnIn2dp a

/-- The Credit Limit cell of the details grid (ResultsDisplay.js line
55): `formatCurrency(credit_limit)`. -/
def creditLimitCell (d : StatementResult) : String :=
  formatCurrency d.credit_limit

/-- The component state of `App` (App.js lines 140–144): the five
`useState` hooks.  A selected file is modelled by its name. -/
structure AppState where
  bank : String
  file : Option String
  parsedData : Option StatementResult
  isLoading : Bool
  error : String
deriving DecidableEq, Repr

/-- The validation message set by `handleSubmit` when no file is
selected (App.js line 150). -/
def validationMessage : String := "Please select a PDF file to upload."

/-- The synchronous prefix of `handleSubmit` (App.js lines 146–168), up
to the point where the network request is issued: with no file selected
it only sets the error message and returns early; otherwise it sets the
loading flag, clears the previous result and error, and issues the
request.  The returned flag records whether a network request was
issued. -/
def handleSubmitPre (s : AppState) : AppState × Bool :=
  match s.file with
  | none => ({ s with error := validationMessage }, false)
  | some _ => ({ s with isLoading := true, parsedData := none, error := "" }, true)

/-- What `App` renders below the form (App.js lines 220–228): the
loading note when `isLoading` is set, the error div when `error` is
truthy (non-empty), and the results/analytics pair when `parsedData`
is truthy (present) — the last two independently of each other. -/
structure AppView where
  showsLoading : Bool
  errorShown : Option String
  resultShown : Option StatementResult
deriving DecidableEq, Repr

/-- The conditional rendering of App.js lines 220–228. -/
def appRender (s : AppState) : AppView :=
  { showsLoading := s.isLoading
    errorShown := if s.error = "" then none else some s.error
    resultShown := s.parsedData }

/-- A store of JavaScript arrays of transactions: contents per
reference, plus the next fresh reference. -/
structure Heap where
  arrays : ℕ → List Txn
  next : ℕ

/-- `arr.filter(p)` at the heap level: allocates a fresh array holding
the filtered contents; every existing array is untouched. -/
def filterAlloc (h : Heap) (r : ℕ) (p : Txn → Bool) : Heap × ℕ :=
  (⟨fun i => if i = h.next then (h.arrays r).filter p else h.arrays i, h.next + 1⟩,
    h.next)

/-- `arr.sort((a, b) => b.amount - a.amount)` at the heap level: sorts
the addressed array in place, mutating it; every other array is
untouched. -/
def sortInPlaceByAmountDesc (h : Heap) (r : ℕ) : Heap :=
  ⟨fun i => if i = r then sortByAmountDesc (h.arrays r) else h.arrays i, h.next⟩

/-- Lines 16–18 of DonutAnalytics.js at the heap level:
`data.transactions.filter(t => t.type === 'debit').sort(...)` — the
filter allocates a fresh array and the sort mutates only that fresh
array.  Returns the heap and the reference bound to
`debitTransactions`. -/
def debitPipeline (h : Heap) (r : ℕ) : Heap × ℕ :=
  let fa := filterAlloc h r isDebit
  (sortInPlaceByAmountDesc fa.1 fa.2, fa.2)

/-! ## Helper lemmas and concrete fixtures -/

theorem debitTransactions_perm (ts : List Txn) :
    (debitTransactions ts).Perm (ts.filter isDebit) :=
  List.mergeSort_perm _ _

theorem totalSpent_eq_filter_sum (ts : List Txn) :
    totalSpent ts = ((ts.filter isDebit).map Txn.amount).sum :=
  ((debitTransactions_perm ts).map Txn.amount).sum_eq

theorem amount_comp_toSlice : Slice.amount ∘ Txn.toSlice = Txn.amount := rfl

theorem rupee_append_ne_NA (s : String) : "₹" ++ s ≠ "N/A" := by
  intro heq
  have hd := congrArg String.data heq
  rw [String.data_append] at hd
  have h1 : ("₹" : String).data = ['₹'] := rfl
  have h2 : ("N/A" : String).data = ['N', '/', 'A'] := rfl
  rw [h1, h2] at hd
  simp at hd

theorem formatCurrency_zero_eval : formatCurrency (some 0) = "₹0.00" := by
  have h0 : jsRoundHalfExpand ((0 : ℚ) * 100) = 0 := by
    unfold jsRoundHalfExpand
    norm_num
  show "₹" ++ toLocaleStringEnIn2dp 0 = "₹0.00"
  unfold toLocaleStringEnIn2dp
  rw [h0]
  decide

/-- A statement whose transactions array is entirely empty. -/
def emptyStatement : StatementResult :=
  ⟨"Demo Bank", none, none, none, none, none, none, none, []⟩

/-- A statement with one debit transaction of amount exactly 0. -/
def zeroDebitStatement : StatementResult :=
  ⟨"Demo Bank", none, none, none, none, none, none, none,
    [⟨"01/01/2025", "Zero purchase", 0, "debit"⟩]⟩

/-- A statement holding only a credit (refund) transaction: nonempty
transactions, zero debit entries. -/
def creditOnlyStatement : StatementResult :=
  ⟨"Demo Bank", none, none, none, none, none, none, none,
    [⟨"02/01/2025", "Refund", 5, "credit"⟩]⟩

/-- The six-debit example of the specification: amounts
100, 200, 300, 400, 500, 600. -/
def sixDebits : List Txn :=
  [⟨"01", "a", 100, "debit"⟩, ⟨"02", "b", 200, "debit"⟩,
   ⟨"03", "c", 300, "debit"⟩, ⟨"04", "d", 400, "debit"⟩,
   ⟨"05", "e", 500, "debit"⟩, ⟨"06", "f", 600, "debit"⟩]

/-- The mixed example of the specification: debits 500 and 1500 plus a
credit of 200. -/
def mixedTxns : List Txn :=
  [⟨"01", "a", 500, "debit"⟩, ⟨"02", "b", 1500, "debit"⟩,
   ⟨"03", "c", 200, "credit"⟩]

/-! ## Claim theorems -/

unseal List.merge List.mergeSort Rat.add in
/-- C1: the claim asserts that the legend percentage always equals
amount / grand total rounded to one decimal place and that, when every
debit amount is exactly zero (grand total = 0), the computation is
guarded against division by zero and yields 0.0.  The code has no such
guard: on a statement whose only debit transaction has amount 0,
`((item.amount / totalSpent) * 100).toFixed(1)` evaluates `0 / 0`,
which is `NaN`, and the legend displays "NaN%" — not 0.0.  This theorem
evaluates the component at that failing input: the legend-percentage
list is `[none]` (the non-finite outcome), not `[some (toFixed1 0)]`. -/
theorem donutAnalytics_all_zero_debits_percentage_NaN :
    donutAnalytics (some zeroDebitStatement) =
      DonutRender.chart [⟨"Zero purchase", 0⟩] 0 [none] ∧
    (none : Option ℚ) ≠ some (toFixed1 0) := by
  exact ⟨by decide, by decide⟩

/-- C2: for every transaction list whose debit-filtered part is
non-empty, the grand total `totalSpent` (summed over the entire
debit-only set) equals the sum of the amounts of all slices produced by
the aggregation (top-4 slices plus the "Others" slice when present). -/
theorem chartItems_amount_sum_eq_totalSpent (ts : List Txn)
    (_h : debitTransactions ts ≠ []) :
    ((chartItems ts).map Slice.amount).sum = totalSpent ts := by
  unfold chartItems topItems otherItems otherItemsSum totalSpent
  by_cases hd : 0 < ((debitTransactions ts).drop 4).length
  · simp only [hd, if_true, List.map_append, List.sum_append, List.map_map,
      amount_comp_toSlice, List.map_cons, List.map_nil, List.sum_cons, List.sum_nil]
    unfold otherItems
    rw [add_zero, ← List.sum_append, ← List.map_append, List.take_append_drop]
  · simp only [hd, if_false, List.map_map, amount_comp_toSlice]
    have hnil : (debitTransactions ts).drop 4 = [] := by
      cases hx : (debitTransactions ts).drop 4 with
      | nil => rfl
      | cons a l => rw [hx] at hd; simp at hd
    have ht : (debitTransactions ts).take 4 = debitTransactions ts := by
      have h2 := List.take_append_drop 4 (debitTransactions ts)
      rw [hnil, List.append_nil] at h2
      exact h2
    rw [ht]

unseal List.merge List.mergeSort Rat.add in
theorem chartItems_amount_sum_eq_totalSpent_witness :
    debitTransactions mixedTxns ≠ [] ∧
    ((chartItems mixedTxns).map Slice.amount).sum = totalSpent mixedTxns :=
  ⟨by decide, chartItems_amount_sum_eq_totalSpent mixedTxns (by decide)⟩

/-- C3: on a debit-only transaction list of at most 4 entries, the
aggregation returns exactly that many slices — the sorted input entries
verbatim, with no synthetic "Others" slice appended — and the grand
total equals the arithmetic sum of the input amounts; on a debit-only
list of more than 4 entries it returns exactly 5 slices, the top 4 by
amount verbatim plus one slice labeled "Others" whose amount is the sum
of all entries beyond the top 4 by amount. -/
theorem chartItems_top4_others_split (ts : List Txn)
    (h : ∀ t ∈ ts, t.type = "debit") :
    (ts.length ≤ 4 →
      chartItems ts = (sortByAmountDesc ts).map Txn.toSlice ∧
      (chartItems ts).length = ts.length ∧
      totalSpent ts = (ts.map Txn.amount).sum) ∧
    (4 < ts.length →
      (chartItems ts).length = 5 ∧
      chartItems ts =
        ((sortByAmountDesc ts).take 4).map Txn.toSlice ++
          [⟨"Others", (((sortByAmountDesc ts).drop 4).map Txn.amount).sum⟩] ∧
      totalSpent ts = (ts.map Txn.amount).sum) := by
  have hf : ts.filter isDebit = ts :=
    List.filter_eq_self.mpr (fun a ha => by simp [isDebit, h a ha])
  have hdt : debitTransactions ts = sortByAmountDesc ts := by
    unfold debitTransactions; rw [hf]
  have hlen : (sortByAmountDesc ts).length = ts.length :=
    List.length_mergeSort ts
  have htot : totalSpent ts = (ts.map Txn.amount).sum := by
    rw [totalSpent_eq_filter_sum, hf]
  constructor
  · intro hle
    have hdrop : (sortByAmountDesc ts).drop 4 = [] :=
      List.drop_eq_nil_of_le (by omega)
    have htake : (sortByAmountDesc ts).take 4 = sortByAmountDesc ts :=
      List.take_of_length_le (by omega)
    refine ⟨?_, ?_, htot⟩
    · unfold chartItems topItems otherItems
      rw [hdt, hdrop, htake]
      simp
    · unfold chartItems topItems otherItems
      rw [hdt, hdrop, htake]
      simp [hlen]
  · intro hgt
    have htlen : ((sortByAmountDesc ts).take 4).length = 4 := by
      rw [List.length_take]; omega
    have hpos : 0 < ((sortByAmountDesc ts).drop 4).length := by
      rw [List.length_drop]; omega
    refine ⟨?_, ?_, htot⟩
    · unfold chartItems topItems otherItems
      rw [hdt]
      simp only [hpos, if_true, List.length_append, List.length_map, htlen]
      rfl
    · unfold chartItems topItems otherItems otherItemsSum
      rw [hdt]
      simp only [hpos, if_true]
      unfold otherItems
      rw [hdt]

unseal List.merge List.mergeSort Rat.add in
theorem chartItems_top4_others_split_witness :
    (∀ t ∈ sixDebits, t.type = "debit") ∧
    ((chartItems sixDebits).length = 5 ∧
      chartItems sixDebits =
        ((sortByAmountDesc sixDebits).take 4).map Txn.toSlice ++
          [⟨"Others", (((sortByAmountDesc sixDebits).drop 4).map Txn.amount).sum⟩] ∧
      totalSpent sixDebits = (sixDebits.map Txn.amount).sum) :=
  ⟨by decide, (chartItems_top4_others_split sixDebits (by decide)).2 (by decide)⟩

/-- C4 counterexample: the claim says every transaction list with zero
debit entries, *including the entirely empty list*, short-circuits to
the explicit "no spending data" state.  On the entirely empty list the
component instead returns `null` (renders nothing at all, line 12),
which is not the explicit "No spending transactions found in this
statement." message (lines 20–27). -/
theorem donutAnalytics_empty_list_renders_null :
    donutAnalytics (some emptyStatement) = DonutRender.empty ∧
      DonutRender.empty ≠ DonutRender.noSpending :=
  ⟨rfl, by decide⟩

/-- C4 (amended): for every transaction list with zero debit entries
the component never reaches the grouping code and never produces any
slice (in particular no zero-amount slice): a nonempty list with zero
debit entries renders the explicit "no spending data" message, while
the entirely empty list renders nothing (`null`). -/
theorem donutAnalytics_no_debit_short_circuit (d : StatementResult)
    (h : d.transactions.filter isDebit = []) :
    (d.transactions = [] → donutAnalytics (some d) = DonutRender.empty) ∧
    (d.transactions ≠ [] → donutAnalytics (some d) = DonutRender.noSpending) ∧
    (∀ s t p, donutAnalytics (some d) ≠ DonutRender.chart s t p) := by
  have hdt : debitTransactions d.transactions = [] := by
    unfold debitTransactions sortByAmountDesc
    rw [h]
    exact List.mergeSort_nil
  constructor
  · intro he
    unfold donutAnalytics
    simp [he]
  constructor
  · intro hne
    unfold donutAnalytics
    have hl : d.transactions.length ≠ 0 := by
      intro h0; exact hne (List.eq_nil_of_length_eq_zero h0)
    simp [hl, hdt]
  · intro s t p
    unfold donutAnalytics
    by_cases hl : d.transactions.length = 0
    · simp [hl]
    · simp [hl, hdt]

theorem donutAnalytics_no_debit_short_circuit_witness :
    creditOnlyStatement.transactions.filter isDebit = [] ∧
    donutAnalytics (some creditOnlyStatement) = DonutRender.noSpending :=
  ⟨by decide,
    (donutAnalytics_no_debit_short_circuit creditOnlyStatement (by decide)).2.1
      (by decide)⟩

/-- C5: the grand total is invariant under reordering of the input
transaction list: permuted inputs yield the same `totalSpent`. -/
theorem totalSpent_perm_invariant (ts ts' : List Txn) (h : ts.Perm ts') :
    totalSpent ts = totalSpent ts' := by
  rw [totalSpent_eq_filter_sum, totalSpent_eq_filter_sum]
  exact ((h.filter isDebit).map Txn.amount).sum_eq

unseal List.merge List.mergeSort Rat.add in
theorem totalSpent_perm_invariant_witness :
    (mixedTxns.reverse).Perm mixedTxns ∧
    totalSpent mixedTxns.reverse = totalSpent mixedTxns :=
  ⟨by decide, totalSpent_perm_invariant mixedTxns.reverse mixedTxns (by decide)⟩

/-- C6: `formatCurrency` applied to a null or undefined amount returns
the literal "N/A" placeholder — never the string "0" nor a
zero-currency rendering "₹0.00" (and, being total, never an
exception) — and a `StatementResult` with null `credit_limit` renders
that placeholder in the Credit Limit detail cell. -/
theorem formatCurrency_null_placeholder :
    formatCurrency none = "N/A" ∧
    formatCurrency none ≠ "0" ∧
    formatCurrency none ≠ "₹0.00" ∧
    ∀ d : StatementResult, d.credit_limit = none → creditLimitCell d = "N/A" := by
  refine ⟨rfl, by decide, by decide, ?_⟩
  intro d h
  unfold creditLimitCell
  rw [h]
  rfl

/-- A statement whose `credit_limit` is null but whose other numeric
fields are present. -/
def nullLimitStatement : StatementResult :=
  ⟨"Demo Bank", some "XXXX-1234", some "01/01/2025", some "20/01/2025",
    none, some 1000, some 100, some 4000, []⟩

theorem formatCurrency_null_placeholder_witness :
    nullLimitStatement.credit_limit = none ∧
    creditLimitCell nullLimitStatement = "N/A" :=
  ⟨rfl, formatCurrency_null_placeholder.2.2.2 nullLimitStatement rfl⟩

/-- C7: a form submit with no file selected leaves the shell in the
Idle state: the loading flag is untouched (in particular an idle shell
stays idle), the validation message is set and surfaced, and no network
request is issued. -/
theorem handleSubmit_no_file_stays_idle (s : AppState) (h : s.file = none) :
    (handleSubmitPre s).1.isLoading = s.isLoading ∧
    (handleSubmitPre s).1.error = validationMessage ∧
    (handleSubmitPre s).2 = false ∧
    (appRender (handleSubmitPre s).1).errorShown = some validationMessage ∧
    (s.isLoading = false → (handleSubmitPre s).1.isLoading = false) := by
  unfold handleSubmitPre appRender
  rw [h]
  refine ⟨rfl, rfl, rfl, ?_, fun hi => hi⟩
  have hv : validationMessage ≠ "" := by decide
  simp [hv]

/-- The idle shell right after mount: default bank, nothing selected,
nothing stored. -/
def idleState : AppState := ⟨"axis", none, none, false, ""⟩

theorem handleSubmit_no_file_stays_idle_witness :
    idleState.file = none ∧
    ((handleSubmitPre idleState).1.isLoading = idleState.isLoading ∧
      (handleSubmitPre idleState).1.error = validationMessage ∧
      (handleSubmitPre idleState).2 = false ∧
      (appRender (handleSubmitPre idleState).1).errorShown = some validationMessage ∧
      (idleState.isLoading = false → (handleSubmitPre idleState).1.isLoading = false)) :=
  ⟨rfl, handleSubmit_no_file_stays_idle idleState rfl⟩

/-- C8 (frame effect): a submit with no file selected modifies only the
error field — the stored parsed result, bank, file and loading flag are
unchanged — and a previously displayed Success result remains stored
and rendered alongside the newly surfaced validation message. -/
theorem handleSubmit_no_file_preserves_parsedData (s : AppState)
    (d : StatementResult) (hf : s.file = none) (hd : s.parsedData = some d) :
    (handleSubmitPre s).1.parsedData = some d ∧
    (handleSubmitPre s).1.bank = s.bank ∧
    (handleSubmitPre s).1.file = s.file ∧
    (handleSubmitPre s).1.isLoading = s.isLoading ∧
    (handleSubmitPre s).1.error = validationMessage ∧
    (appRender (handleSubmitPre s).1).resultShown = some d ∧
    (appRender (handleSubmitPre s).1).errorShown = some validationMessage := by
  unfold handleSubmitPre appRender
  rw [hf]
  refine ⟨hd, rfl, rfl, rfl, rfl, hd, ?_⟩
  have hv : validationMessage ≠ "" := by decide
  simp [hv]

/-- The shell after a successful parse: a stored result, no error, not
loading, and the file selector cleared. -/
def successState : AppState := ⟨"axis", none, some nullLimitStatement, false, ""⟩

theorem handleSubmit_no_file_preserves_parsedData_witness :
    successState.file = none ∧ successState.parsedData = some nullLimitStatement ∧
    ((handleSubmitPre successState).1.parsedData = some nullLimitStatement ∧
      (handleSubmitPre successState).1.bank = successState.bank ∧
      (handleSubmitPre successState).1.file = successState.file ∧
      (handleSubmitPre successState).1.isLoading = successState.isLoading ∧
      (handleSubmitPre successState).1.error = validationMessage ∧
      (appRender (handleSubmitPre successState).1).resultShown = some nullLimitStatement ∧
      (appRender (handleSubmitPre successState).1).errorShown = some validationMessage) :=
  ⟨rfl, rfl,
    handleSubmit_no_file_preserves_parsedData successState nullLimitStatement rfl rfl⟩

/-- C9 (frame effect): at the heap level, the
`filter(...).sort(...)` pipeline of lines 16–18 never mutates its
input: the filter allocates a fresh array (the returned reference is
distinct from the input's), the in-place sort mutates only that fresh
array, the original transactions array is unchanged afterwards, and
the fresh array holds exactly `debitTransactions` of the original
contents. -/
theorem debitPipeline_preserves_input_array (h : Heap) (r : ℕ)
    (hr : r < h.next) :
    (debitPipeline h r).1.arrays r = h.arrays r ∧
    (debitPipeline h r).2 ≠ r ∧
    (debitPipeline h r).1.arrays (debitPipeline h r).2 =
      debitTransactions (h.arrays r) := by
  have hrne : r ≠ h.next := by omega
  refine ⟨?_, ?_, ?_⟩
  · simp [debitPipeline, filterAlloc, sortInPlaceByAmountDesc, hrne]
  · simp [debitPipeline, filterAlloc, sortInPlaceByAmountDesc]
    omega
  · simp [debitPipeline, filterAlloc, sortInPlaceByAmountDesc, debitTransactions]

/-- A one-array heap holding the mixed example transactions at
reference 0. -/
def demoHeap : Heap := ⟨fun _ => mixedTxns, 1⟩

theorem debitPipeline_preserves_input_array_witness :
    0 < demoHeap.next ∧
    ((debitPipeline demoHeap 0).1.arrays 0 = demoHeap.arrays 0 ∧
      (debitPipeline demoHeap 0).2 ≠ 0 ∧
      (debitPipeline demoHeap 0).1.arrays (debitPipeline demoHeap 0).2 =
        debitTransactions (demoHeap.arrays 0)) :=
  ⟨by decide, debitPipeline_preserves_input_array demoHeap 0 (by decide)⟩

/-- C10: `formatCurrency` applied to the present numeric amount 0
returns the formatted currency string "₹0.00", not the "N/A"
placeholder; only null/undefined inputs map to the placeholder — every
present amount renders with the "₹" prefix and so never as "N/A". -/
theorem formatCurrency_zero_amount :
    formatCurrency (some 0) = "₹0.00" ∧
    formatCurrency (some 0) ≠ "N/A" ∧
    (∀ q : ℚ, formatCurrency (some q) ≠ "N/A") := by
  refine ⟨formatCurrency_zero_eval, ?_,
    fun q => by unfold formatCurrency; exact rupee_append_ne_NA _⟩
  rw [formatCurrency_zero_eval]
  decide
